import Mathlib

/-!
Verification of the mimcl virtual-scrolling engine (`src/virt/ScrollAxis.ts`).

The embedding models JavaScript numbers by exact rationals (`ℚ`) for pixel
sizes and scroll positions, and by integers (`ℤ`) for item counts and indices
(the source only ever produces integral index values via `Math.floor`,
`Math.ceil`, `Math.min` and `Math.max`).  The fallible `measure` method, which
throws when `oldCount` is zero while data exists, is modelled with `Except`.
The `console.error` diagnostic emitted on an inverted computed range is
modelled as a boolean component of the result.
-/

instance {ε α : Type} [DecidableEq ε] [DecidableEq α] : DecidableEq (Except ε α) := fun a b =>
  match a, b with
  | .error x, .error y => decidable_of_iff (x = y) (by simp)
  | .error _, .ok _ => .isFalse (by simp)
  | .ok _, .error _ => .isFalse (by simp)
  | .ok x, .ok y => decidable_of_iff (x = y) (by simp)

/-- Error message thrown by `ScrollAxis.measure` when `itemCount` is zero. -/
def itemCountErrMsg : String := "itemCount cannot be zero"

/-- The `ScrollAxis` class: three overscan configuration fields
(`ScrollAxis.ts` lines 29–48).  The constructor stores the three values
unchecked; `ScrollAxis.make` mirrors it. -/
structure ScrollAxis where
  minOverscan : ℤ
  optOverscan : ℤ
  maxOverscan : ℤ
deriving DecidableEq, Repr

/-- The constructor of `ScrollAxis` (lines 43–48): it assigns the three
fields and performs no validation whatsoever. -/
def ScrollAxis.make (minOverscan optOverscan maxOverscan : ℤ) : ScrollAxis :=
  { minOverscan := minOverscan, optOverscan := optOverscan, maxOverscan := maxOverscan }

/-- The `ScrollAxisAction` result class (lines 184–224), fields in source
order with their initializers given by `ScrollAxisAction.init`. -/
structure ScrollAxisAction where
  newAvgItemSize : ℚ
  newWallSize : ℤ
  newSubsetOffset : ℤ
  newFirst : ℤ
  newLast : ℤ
  noAddRemoveNeeded : Bool
  neeedToRemoveAllItems : Bool
  countToRemoveAtStart : ℤ
  countToRemoveAtEnd : ℤ
  countToAddAtStart : ℤ
  countToAddAtEnd : ℤ
deriving DecidableEq, Repr

/-- A freshly constructed `ScrollAxisAction`: every numeric field is
initialized to `0` and both flags to `false` (lines 186–223). -/
def ScrollAxisAction.init : ScrollAxisAction :=
  { newAvgItemSize := 0, newWallSize := 0, newSubsetOffset := 0,
    newFirst := 0, newLast := 0,
    noAddRemoveNeeded := false, neeedToRemoveAllItems := false,
    countToRemoveAtStart := 0, countToRemoveAtEnd := 0,
    countToAddAtStart := 0, countToAddAtEnd := 0 }

/-- New average item size (lines 81–83): raw estimate `subsetSize / oldCount`,
averaged with the previous estimate when one exists (JavaScript truthiness of
`oldAvgItemSize`, i.e. `oldAvgItemSize ≠ 0`). -/
def newAvgOf (oldCount : ℤ) (oldAvgItemSize subsetSize : ℚ) : ℚ :=
  let rawAvg := subsetSize / (oldCount : ℚ)
  if oldAvgItemSize ≠ 0 then (rawAvg + oldAvgItemSize) / 2 else rawAvg

/-- Start-boundary selection (lines 103–112): the nested conditionals choosing
`newFirst` from the min/opt/max-overscan candidates and the old range. -/
def selectFirst (minOverscanFirst optOverscanFirst maxOverscanFirst oldFirst oldLast : ℤ) : ℤ :=
  if minOverscanFirst < oldFirst then optOverscanFirst
  else if minOverscanFirst > oldFirst ∧ minOverscanFirst < oldLast then
    max maxOverscanFirst oldFirst
  else if maxOverscanFirst > oldLast then optOverscanFirst
  else if oldLast - maxOverscanFirst > optOverscanFirst - oldLast then maxOverscanFirst
  else optOverscanFirst

/-- End-boundary selection (lines 114–123): the nested conditionals choosing
`newLast` from the min/opt/max-overscan candidates and the old range. -/
def selectLast (minOverscanLast optOverscanLast maxOverscanLast oldFirst oldLast : ℤ) : ℤ :=
  if minOverscanLast > oldLast then optOverscanLast
  else if minOverscanLast < oldLast ∧ minOverscanLast > oldFirst then
    min maxOverscanLast oldLast
  else if maxOverscanLast < oldFirst then optOverscanLast
  else if maxOverscanLast - oldFirst > oldFirst - optOverscanLast then maxOverscanLast
  else optOverscanLast

/-- `newFirst` as computed by `measure` (lines 87–112): fit range from the
scroll position and size estimate, overscan candidates clamped at `0`, then
the start-boundary selection. -/
def newFirstOf (ax : ScrollAxis) (totalCount oldFirst oldCount : ℤ)
    (oldAvgItemSize subsetSize scrollPos : ℚ) : ℤ :=
  let oldLast := oldFirst + oldCount - 1
  let totalLast := totalCount - 1
  let newAvgItemSize := newAvgOf oldCount oldAvgItemSize subsetSize
  let fitFirst := min ⌊scrollPos / newAvgItemSize⌋ totalLast
  let minOverscanFirst := max (fitFirst - ax.minOverscan) 0
  let optOverscanFirst := max (fitFirst - ax.optOverscan) 0
  let maxOverscanFirst := max (fitFirst - ax.maxOverscan) 0
  selectFirst minOverscanFirst optOverscanFirst maxOverscanFirst oldFirst oldLast

/-- `newLast` as computed by `measure` (lines 88–123): fit range from the
scroll position, frame size and size estimate, overscan candidates clamped at
`totalLast`, then the end-boundary selection. -/
def newLastOf (ax : ScrollAxis) (totalCount oldFirst oldCount : ℤ)
    (oldAvgItemSize frameSize subsetSize scrollPos : ℚ) : ℤ :=
  let oldLast := oldFirst + oldCount - 1
  let totalLast := totalCount - 1
  let newAvgItemSize := newAvgOf oldCount oldAvgItemSize subsetSize
  let fitLast := min ⌈(scrollPos + frameSize) / newAvgItemSize⌉ totalLast
  let minOverscanLast := min (fitLast + ax.minOverscan) totalLast
  let optOverscanLast := min (fitLast + ax.optOverscan) totalLast
  let maxOverscanLast := min (fitLast + ax.maxOverscan) totalLast
  selectLast minOverscanLast optOverscanLast maxOverscanLast oldFirst oldLast

/-- The diff computation (lines 137–171): starting from an action whose flags
are unset and whose counts are zero, set `noAddRemoveNeeded` when the range is
unchanged, `neeedToRemoveAllItems` when old and new ranges are disjoint, and
otherwise the four independent add/remove counts. -/
def applyDiff (base : ScrollAxisAction) (oldFirst oldLast newFirst newLast : ℤ) :
    ScrollAxisAction :=
  if newFirst = oldFirst ∧ newLast = oldLast then
    { base with noAddRemoveNeeded := true }
  else if newFirst > oldLast ∨ newLast < oldFirst then
    { base with neeedToRemoveAllItems := true }
  else
    { base with
      countToAddAtStart := if newFirst < oldFirst then oldFirst - newFirst else 0,
      countToRemoveAtStart := if newFirst > oldFirst then newFirst - oldFirst else 0,
      countToRemoveAtEnd := if newLast < oldLast then oldLast - newLast else 0,
      countToAddAtEnd := if newLast > oldLast then newLast - oldLast else 0 }

/-- The body of `measure` once past the two guard clauses (lines 76–173).
Returns the action together with the `console.error` diagnostic flag raised
when `newFirst > newLast` (lines 125–126); note the source only logs and then
proceeds to fill and return the action unchanged. -/
def measureCore (ax : ScrollAxis) (totalCount oldFirst oldCount : ℤ)
    (oldAvgItemSize frameSize subsetSize scrollPos : ℚ) : ScrollAxisAction × Bool :=
  let oldLast := oldFirst + oldCount - 1
  let newAvgItemSize := newAvgOf oldCount oldAvgItemSize subsetSize
  let newFirst := newFirstOf ax totalCount oldFirst oldCount oldAvgItemSize subsetSize scrollPos
  let newLast := newLastOf ax totalCount oldFirst oldCount oldAvgItemSize frameSize subsetSize scrollPos
  let base : ScrollAxisAction :=
    { ScrollAxisAction.init with
      newFirst := newFirst, newLast := newLast,
      newAvgItemSize := newAvgItemSize,
      newWallSize := ⌈(totalCount : ℚ) * newAvgItemSize⌉,
      newSubsetOffset := ⌈(newFirst : ℚ) * newAvgItemSize⌉ }
  (applyDiff base oldFirst oldLast newFirst newLast, decide (newFirst > newLast))

set_option linter.unusedVariables false in
/-- `ScrollAxis.measure` (lines 66–174).  `totalCount = 0` returns the
freshly-initialized action at once; `oldCount = 0` with data throws; otherwise
the core computation runs.  The unused `wallSize` parameter is kept to match
the source signature. -/
def ScrollAxis.measure (ax : ScrollAxis) (totalCount oldFirst oldCount : ℤ)
    (oldAvgItemSize frameSize wallSize subsetSize scrollPos : ℚ) :
    Except String (ScrollAxisAction × Bool) :=
  if totalCount = 0 then .ok (ScrollAxisAction.init, false)
  else if oldCount = 0 then .error itemCountErrMsg
  else .ok (measureCore ax totalCount oldFirst oldCount oldAvgItemSize frameSize subsetSize scrollPos)

/-- The `measure` method as a state-passing computation on its receiver.  The
method body (lines 66–174) reads `this.minOverscan`, `this.optOverscan` and
`this.maxOverscan` and contains no assignment to any instance field — the
class has no other state — so the faithful state-passing embedding returns
the receiver unchanged alongside the result. -/
def ScrollAxis.measureM (ax : ScrollAxis) (totalCount oldFirst oldCount : ℤ)
    (oldAvgItemSize frameSize wallSize subsetSize scrollPos : ℚ) :
    Except String (ScrollAxisAction × Bool) × ScrollAxis :=
  (ax.measure totalCount oldFirst oldCount oldAvgItemSize frameSize wallSize subsetSize scrollPos, ax)

/-- The end-boundary selection as claim C4 states it: in the final case the
two distances are measured from the **current** boundary itself (`oldLast` for
the end boundary), not from the opposite boundary.  Spec-side refinement
definition, to be compared with the source's `selectLast`. -/
def selectLastSpecC4 (minOverscanLast optOverscanLast maxOverscanLast oldFirst oldLast : ℤ) : ℤ :=
  if minOverscanLast > oldLast then optOverscanLast
  else if minOverscanLast < oldLast ∧ minOverscanLast > oldFirst then
    min maxOverscanLast oldLast
  else if maxOverscanLast < oldFirst then optOverscanLast
  else if maxOverscanLast - oldLast > oldLast - optOverscanLast then maxOverscanLast
  else optOverscanLast

/-- The first measurement of the C8 scenario: the spec's worked example
(`totalCount = 1000`, old range `[0, 19]`, no established average, 300px
frame, 400px subset, jump to `scrollPos = 5000`). -/
def c8FirstAction : ScrollAxisAction :=
  { ScrollAxisAction.init with
    newAvgItemSize := 20, newWallSize := 20000, newSubsetOffset := 4920,
    newFirst := 246, newLast := 269, neeedToRemoveAllItems := true }

/-- The second measurement of the C8 scenario, taking the first measurement's
output as its old state with all geometry inputs unchanged. -/
def c8SecondAction : ScrollAxisAction :=
  { ScrollAxisAction.init with
    newAvgItemSize := 55/3, newWallSize := 18334, newSubsetOffset := 4840,
    newFirst := 264, newLast := 294,
    countToRemoveAtStart := 18, countToAddAtEnd := 25 }

/-- The inclusive ascending integer range `a, a+1, …, b` (empty when
`b < a`): the index sequence of the source's ascending `for` loops. -/
def intRange (a b : ℤ) : List ℤ :=
  (List.range (b + 1 - a).toNat).map (fun (k : ℕ) => a + (k : ℤ))

/-- The inclusive descending integer range `a, a-1, …, b` (empty when
`a < b`): the index sequence of the source's descending `for` loops. -/
def intRangeRev (a b : ℤ) : List ℤ :=
  (List.range (a + 1 - b).toNat).map (fun (k : ℕ) => a - (k : ℤ))

/-- The part of the `VTable` component state read and written by
`updateCols` (`ScrollAxis.ts` lines 1765–1837 with the fields declared at
lines 1848–1877): the materialized rows — each row the ordered list of the
`VCell`s built from the data-source results — and the current row/column
index ranges.  Cells are abstract (`α`); the data-source callback composed
with the `VCell` constructor is the function `getCell : ℤ → ℤ → α`. -/
structure VTableState (α : Type) where
  rows : List (List α)
  firstRow : ℤ
  lastRow : ℤ
  firstCol : ℤ
  lastCol : ℤ

/-- `VTable.updateCols` (lines 1765–1837).  The row loops of the source run
`i` from `firstRow` to `lastRow` and mutate `rows[i - firstRow]`; under the
component's invariant `rows.length = lastRow - firstRow + 1` this is the
per-row transformation written here.  The second component is the trace of
data-source invocations `(row, col)` in call order: for each branch, rows in
ascending order, and within a row the source's column loop order (ascending
for `addAtEnd` and `replaceAll`, descending from `firstCol - 1` down to
`newFirst` for `addAtStart`).  The removal branches call `Array.splice` only
and invoke no callback. -/
def VTable.updateCols {α : Type} (getCell : ℤ → ℤ → α) (act : ScrollAxisAction)
    (st : VTableState α) : VTableState α × List (ℤ × ℤ) :=
  if act.neeedToRemoveAllItems then
    ({ st with
        rows := st.rows.mapIdx (fun r _ =>
          (intRange act.newFirst act.newLast).map (fun j => getCell (st.firstRow + (r : ℤ)) j)),
        firstCol := act.newFirst, lastCol := act.newLast },
      (intRange st.firstRow st.lastRow).flatMap (fun i =>
        (intRange act.newFirst act.newLast).map (fun j => (i, j))))
  else
    let rows1 := if act.countToRemoveAtEnd > 0 then
        st.rows.map (fun cells => cells.take (cells.length - act.countToRemoveAtEnd.toNat))
      else st.rows
    let rows2 := if act.countToRemoveAtStart > 0 then
        rows1.map (fun cells => cells.drop act.countToRemoveAtStart.toNat)
      else rows1
    let rows3 := if act.countToAddAtEnd > 0 then
        rows2.mapIdx (fun r cells =>
          cells ++ (intRange (st.lastCol + 1) act.newLast).map
            (fun j => getCell (st.firstRow + (r : ℤ)) j))
      else rows2
    let trace3 := if act.countToAddAtEnd > 0 then
        (intRange st.firstRow st.lastRow).flatMap (fun i =>
          (intRange (st.lastCol + 1) act.newLast).map (fun j => (i, j)))
      else []
    let rows4 := if act.countToAddAtStart > 0 then
        rows3.mapIdx (fun r cells =>
          (intRange act.newFirst (st.firstCol - 1)).map
            (fun j => getCell (st.firstRow + (r : ℤ)) j) ++ cells)
      else rows3
    let trace4 := if act.countToAddAtStart > 0 then
        (intRange st.firstRow st.lastRow).flatMap (fun i =>
          (intRangeRev (st.firstCol - 1) act.newFirst).map (fun j => (i, j)))
      else []
    ({ st with rows := rows4, firstCol := act.newFirst, lastCol := act.newLast },
      trace3 ++ trace4)

-- sanity checks of the embedding on the spec's worked example (totalCount
-- 1000, 20 items materialized, 20px items, 300px frame, jump to 5000px,
-- overscans 2/4/8 ⇒ replaceAll with new range 246–269)
example :
    (ScrollAxis.make 2 4 8).measure 1000 0 20 0 300 0 400 5000 =
      .ok ({ ScrollAxisAction.init with
              newAvgItemSize := 20, newWallSize := 20000, newSubsetOffset := 4920,
              newFirst := 246, newLast := 269, neeedToRemoveAllItems := true }, false) := by
  norm_num [ScrollAxis.measure, measureCore, newFirstOf, newLastOf, newAvgOf,
    selectFirst, selectLast, applyDiff, ScrollAxisAction.init, ScrollAxis.make]

example :
    (ScrollAxis.make 2 4 8).measure 0 0 20 0 300 0 400 5000 =
      .ok (ScrollAxisAction.init, false) := by
  norm_num [ScrollAxis.measure]

example :
    (ScrollAxis.make 2 4 8).measure 1000 0 0 0 300 0 400 5000 =
      .error itemCountErrMsg := by
  norm_num [ScrollAxis.measure]

/-! ### Shared helper lemmas about the embedding -/

theorem applyDiff_newFirst (b : ScrollAxisAction) (oldFirst oldLast nf nl : ℤ) :
    (applyDiff b oldFirst oldLast nf nl).newFirst = b.newFirst := by
  unfold applyDiff; split_ifs <;> rfl

theorem applyDiff_newLast (b : ScrollAxisAction) (oldFirst oldLast nf nl : ℤ) :
    (applyDiff b oldFirst oldLast nf nl).newLast = b.newLast := by
  unfold applyDiff; split_ifs <;> rfl

theorem applyDiff_newAvgItemSize (b : ScrollAxisAction) (oldFirst oldLast nf nl : ℤ) :
    (applyDiff b oldFirst oldLast nf nl).newAvgItemSize = b.newAvgItemSize := by
  unfold applyDiff; split_ifs <;> rfl

theorem measure_eq_ok (ax : ScrollAxis) (totalCount oldFirst oldCount : ℤ)
    (oldAvgItemSize frameSize wallSize subsetSize scrollPos : ℚ)
    (htc : totalCount ≠ 0) (hoc : oldCount ≠ 0) :
    ax.measure totalCount oldFirst oldCount oldAvgItemSize frameSize wallSize subsetSize scrollPos =
      .ok (measureCore ax totalCount oldFirst oldCount oldAvgItemSize frameSize subsetSize scrollPos) := by
  simp [ScrollAxis.measure, htc, hoc]

theorem measureCore_fst_newFirst (ax : ScrollAxis) (totalCount oldFirst oldCount : ℤ)
    (oldAvgItemSize frameSize subsetSize scrollPos : ℚ) :
    (measureCore ax totalCount oldFirst oldCount oldAvgItemSize frameSize subsetSize scrollPos).1.newFirst =
      newFirstOf ax totalCount oldFirst oldCount oldAvgItemSize subsetSize scrollPos := by
  simp [measureCore, applyDiff_newFirst]

theorem measureCore_fst_newLast (ax : ScrollAxis) (totalCount oldFirst oldCount : ℤ)
    (oldAvgItemSize frameSize subsetSize scrollPos : ℚ) :
    (measureCore ax totalCount oldFirst oldCount oldAvgItemSize frameSize subsetSize scrollPos).1.newLast =
      newLastOf ax totalCount oldFirst oldCount oldAvgItemSize frameSize subsetSize scrollPos := by
  simp [measureCore, applyDiff_newLast]

theorem measureCore_fst_newAvgItemSize (ax : ScrollAxis) (totalCount oldFirst oldCount : ℤ)
    (oldAvgItemSize frameSize subsetSize scrollPos : ℚ) :
    (measureCore ax totalCount oldFirst oldCount oldAvgItemSize frameSize subsetSize scrollPos).1.newAvgItemSize =
      newAvgOf oldCount oldAvgItemSize subsetSize := by
  simp [measureCore, applyDiff_newAvgItemSize]

theorem newAvg_pos (oldCount : ℤ) (oldAvgItemSize subsetSize : ℚ) (hoc : 0 < oldCount)
    (hss : 0 ≤ subsetSize) (hoa : 0 ≤ oldAvgItemSize)
    (hpos : 0 < subsetSize ∨ 0 < oldAvgItemSize) :
    0 < newAvgOf oldCount oldAvgItemSize subsetSize := by
  unfold newAvgOf
  have hc : (0 : ℚ) < (oldCount : ℚ) := by exact_mod_cast hoc
  have hraw : 0 ≤ subsetSize / (oldCount : ℚ) := div_nonneg hss hc.le
  split_ifs with hne
  · have hoa' : 0 < oldAvgItemSize := hoa.lt_of_ne (Ne.symm hne)
    linarith
  · rcases hpos with h | h
    · exact div_pos h hc
    · exact absurd (not_not.mp hne) h.ne'

theorem selectFirst_bounds (minF optF maxF oldFirst oldLast fitF : ℤ)
    (h1 : 0 ≤ maxF) (h2 : 0 ≤ optF) (h3 : maxF ≤ fitF) (h4 : optF ≤ fitF) (h5 : minF ≤ fitF) :
    0 ≤ selectFirst minF optF maxF oldFirst oldLast ∧
      selectFirst minF optF maxF oldFirst oldLast ≤ fitF := by
  unfold selectFirst; split_ifs <;> omega

theorem selectLast_bounds (minL optL maxL oldFirst oldLast totalLast fitL : ℤ)
    (h1 : optL ≤ totalLast) (h2 : maxL ≤ totalLast) (h3 : fitL ≤ minL) (h4 : fitL ≤ optL)
    (h5 : fitL ≤ maxL) (h6 : oldLast ≤ totalLast) :
    fitL ≤ selectLast minL optL maxL oldFirst oldLast ∧
      selectLast minL optL maxL oldFirst oldLast ≤ totalLast := by
  unfold selectLast; split_ifs <;> omega

theorem newFirstOf_bounds (ax : ScrollAxis) (totalCount oldFirst oldCount : ℤ)
    (oldAvgItemSize subsetSize scrollPos : ℚ)
    (hc1 : 0 ≤ ax.minOverscan) (hc2 : ax.minOverscan ≤ ax.optOverscan)
    (hc3 : ax.optOverscan ≤ ax.maxOverscan)
    (hA : 0 < newAvgOf oldCount oldAvgItemSize subsetSize)
    (hsp : 0 ≤ scrollPos) (htc : 0 < totalCount) :
    0 ≤ newFirstOf ax totalCount oldFirst oldCount oldAvgItemSize subsetSize scrollPos ∧
      newFirstOf ax totalCount oldFirst oldCount oldAvgItemSize subsetSize scrollPos ≤
        min ⌊scrollPos / newAvgOf oldCount oldAvgItemSize subsetSize⌋ (totalCount - 1) := by
  have hfl : (0 : ℤ) ≤ ⌊scrollPos / newAvgOf oldCount oldAvgItemSize subsetSize⌋ :=
    Int.floor_nonneg.mpr (div_nonneg hsp hA.le)
  have hfit : 0 ≤ min ⌊scrollPos / newAvgOf oldCount oldAvgItemSize subsetSize⌋ (totalCount - 1) := by
    omega
  unfold newFirstOf
  exact selectFirst_bounds _ _ _ _ _ _ (le_max_right _ _) (le_max_right _ _)
    (by omega) (by omega) (by omega)

theorem newLastOf_bounds (ax : ScrollAxis) (totalCount oldFirst oldCount : ℤ)
    (oldAvgItemSize frameSize subsetSize scrollPos : ℚ)
    (hc1 : 0 ≤ ax.minOverscan) (hc2 : ax.minOverscan ≤ ax.optOverscan)
    (hc3 : ax.optOverscan ≤ ax.maxOverscan)
    (hol : oldFirst + oldCount - 1 ≤ totalCount - 1) :
    min ⌈(scrollPos + frameSize) / newAvgOf oldCount oldAvgItemSize subsetSize⌉ (totalCount - 1) ≤
        newLastOf ax totalCount oldFirst oldCount oldAvgItemSize frameSize subsetSize scrollPos ∧
      newLastOf ax totalCount oldFirst oldCount oldAvgItemSize frameSize subsetSize scrollPos ≤
        totalCount - 1 := by
  have hfit : min ⌈(scrollPos + frameSize) / newAvgOf oldCount oldAvgItemSize subsetSize⌉
      (totalCount - 1) ≤ totalCount - 1 := min_le_right _ _
  unfold newLastOf
  exact selectLast_bounds _ _ _ _ _ _ _ (min_le_right _ _) (min_le_right _ _)
    (by omega) (by omega) (by omega) hol

theorem fit_first_le_fit_last (totalCount : ℤ) (A frameSize scrollPos : ℚ)
    (hA : 0 < A) (hfs : 0 ≤ frameSize) :
    min ⌊scrollPos / A⌋ (totalCount - 1) ≤ min ⌈(scrollPos + frameSize) / A⌉ (totalCount - 1) := by
  have hle : scrollPos / A ≤ (scrollPos + frameSize) / A := by
    apply div_le_div_of_nonneg_right ?_ hA.le
    linarith
  have h1 : ⌊scrollPos / A⌋ ≤ ⌈(scrollPos + frameSize) / A⌉ :=
    le_trans (Int.floor_le_floor hle) (Int.floor_le_ceil _)
  omega

/-! ### Claim C1: range validity of `measure` -/

/-- Claim C1.  Range validity: for every `ScrollAxis.measure` call on a validly
configured axis (`0 ≤ minOverscan ≤ optOverscan ≤ maxOverscan`, the data-model
invariant of the configuration) with valid inputs — `totalCount > 0`,
`oldCount > 0`, `0 ≤ oldFirst`, `oldFirst + oldCount - 1 ≤ totalCount - 1`,
`scrollPos ≥ 0`, `frameSize ≥ 0`, non-negative geometry (`subsetSize ≥ 0`,
`oldAvgItemSize ≥ 0`) and a positive size estimate available
(`subsetSize > 0` or `oldAvgItemSize > 0`) — the returned action satisfies
`newFirst ≤ newLast` and both bounds lie in `[0, totalCount - 1]`. -/
theorem measure_range_valid (ax : ScrollAxis) (totalCount oldFirst oldCount : ℤ)
    (oldAvgItemSize frameSize wallSize subsetSize scrollPos : ℚ)
    (hc1 : 0 ≤ ax.minOverscan) (hc2 : ax.minOverscan ≤ ax.optOverscan)
    (hc3 : ax.optOverscan ≤ ax.maxOverscan)
    (htc : 0 < totalCount) (hoc : 0 < oldCount) (hof : 0 ≤ oldFirst)
    (hol : oldFirst + oldCount - 1 ≤ totalCount - 1)
    (hsp : 0 ≤ scrollPos) (hfs : 0 ≤ frameSize)
    (hss : 0 ≤ subsetSize) (hoa : 0 ≤ oldAvgItemSize)
    (hpos : 0 < subsetSize ∨ 0 < oldAvgItemSize)
    (a : ScrollAxisAction) (d : Bool)
    (h : ax.measure totalCount oldFirst oldCount oldAvgItemSize frameSize wallSize subsetSize
        scrollPos = .ok (a, d)) :
    a.newFirst ≤ a.newLast ∧ 0 ≤ a.newFirst ∧ a.newFirst ≤ totalCount - 1 ∧
      0 ≤ a.newLast ∧ a.newLast ≤ totalCount - 1 := by
  rw [measure_eq_ok ax totalCount oldFirst oldCount oldAvgItemSize frameSize wallSize subsetSize
    scrollPos htc.ne' hoc.ne'] at h
  injection h with h2
  have ha : a = (measureCore ax totalCount oldFirst oldCount oldAvgItemSize frameSize subsetSize
      scrollPos).1 := by rw [h2]
  have hA : 0 < newAvgOf oldCount oldAvgItemSize subsetSize :=
    newAvg_pos oldCount oldAvgItemSize subsetSize hoc hss hoa hpos
  have hF := newFirstOf_bounds ax totalCount oldFirst oldCount oldAvgItemSize subsetSize scrollPos
    hc1 hc2 hc3 hA hsp htc
  have hL := newLastOf_bounds ax totalCount oldFirst oldCount oldAvgItemSize frameSize subsetSize
    scrollPos hc1 hc2 hc3 hol
  have hfit := fit_first_le_fit_last totalCount (newAvgOf oldCount oldAvgItemSize subsetSize)
    frameSize scrollPos hA hfs
  rw [ha, measureCore_fst_newFirst, measureCore_fst_newLast]
  omega

/-- Witness for C1 at a concrete input: the spec's worked example with
`totalCount = 500`. -/
theorem measure_range_valid_witness :
    ∃ a d, (ScrollAxis.make 2 4 8).measure 500 0 20 0 300 0 400 5000 = .ok (a, d) ∧
      (a.newFirst ≤ a.newLast ∧ 0 ≤ a.newFirst ∧ a.newFirst ≤ 500 - 1 ∧
        0 ≤ a.newLast ∧ a.newLast ≤ 500 - 1) := by
  have h : (ScrollAxis.make 2 4 8).measure 500 0 20 0 300 0 400 5000 =
      .ok ({ ScrollAxisAction.init with
        newAvgItemSize := 20, newWallSize := 10000, newSubsetOffset := 4920,
        newFirst := 246, newLast := 269, neeedToRemoveAllItems := true }, false) := by
    norm_num [ScrollAxis.measure, measureCore, newFirstOf, newLastOf, newAvgOf,
      selectFirst, selectLast, applyDiff, ScrollAxisAction.init, ScrollAxis.make]
  exact ⟨_, _, h, measure_range_valid (ScrollAxis.make 2 4 8) 500 0 20 0 300 0 400 5000
    (by norm_num [ScrollAxis.make]) (by norm_num [ScrollAxis.make])
    (by norm_num [ScrollAxis.make]) (by norm_num) (by norm_num) (by norm_num)
    (by norm_num) (by norm_num) (by norm_num) (by norm_num) (by norm_num)
    (Or.inl (by norm_num)) _ _ h⟩

/-! ### Claim C2: diff consistency of `measure` -/

/-- Claim C2.  Diff consistency: for every `measure` call with `totalCount > 0`
and `oldCount > 0`, the returned action's diff is exactly one of `noChange`
(`noAddRemoveNeeded`), `replaceAll` (`neeedToRemoveAllItems`), or four
non-negative counts in which `countToAddAtStart`/`countToRemoveAtStart` are
never both non-zero (likewise at the end), and applying the diff to the old
range `[oldFirst, oldFirst + oldCount - 1]` yields exactly
`[newFirst, newLast]`. -/
theorem measure_diff_consistent (ax : ScrollAxis) (totalCount oldFirst oldCount : ℤ)
    (oldAvgItemSize frameSize wallSize subsetSize scrollPos : ℚ)
    (htc : totalCount ≠ 0) (hoc : oldCount ≠ 0)
    (a : ScrollAxisAction) (d : Bool)
    (h : ax.measure totalCount oldFirst oldCount oldAvgItemSize frameSize wallSize subsetSize
        scrollPos = .ok (a, d)) :
    (a.noAddRemoveNeeded = true ∧ a.neeedToRemoveAllItems = false ∧
      a.countToAddAtStart = 0 ∧ a.countToRemoveAtStart = 0 ∧
      a.countToAddAtEnd = 0 ∧ a.countToRemoveAtEnd = 0 ∧
      a.newFirst = oldFirst ∧ a.newLast = oldFirst + oldCount - 1) ∨
    (a.noAddRemoveNeeded = false ∧ a.neeedToRemoveAllItems = true ∧
      a.countToAddAtStart = 0 ∧ a.countToRemoveAtStart = 0 ∧
      a.countToAddAtEnd = 0 ∧ a.countToRemoveAtEnd = 0 ∧
      (oldFirst + oldCount - 1 < a.newFirst ∨ a.newLast < oldFirst)) ∨
    (a.noAddRemoveNeeded = false ∧ a.neeedToRemoveAllItems = false ∧
      0 ≤ a.countToAddAtStart ∧ 0 ≤ a.countToRemoveAtStart ∧
      0 ≤ a.countToAddAtEnd ∧ 0 ≤ a.countToRemoveAtEnd ∧
      (a.countToAddAtStart = 0 ∨ a.countToRemoveAtStart = 0) ∧
      (a.countToAddAtEnd = 0 ∨ a.countToRemoveAtEnd = 0) ∧
      a.newFirst = oldFirst - a.countToAddAtStart + a.countToRemoveAtStart ∧
      a.newLast = (oldFirst + oldCount - 1) + a.countToAddAtEnd - a.countToRemoveAtEnd) := by
  rw [measure_eq_ok ax totalCount oldFirst oldCount oldAvgItemSize frameSize wallSize subsetSize
    scrollPos htc hoc] at h
  injection h with h2
  have ha : a = (measureCore ax totalCount oldFirst oldCount oldAvgItemSize frameSize subsetSize
      scrollPos).1 := by rw [h2]
  rw [ha]
  simp only [measureCore, ScrollAxisAction.init]
  unfold applyDiff
  split_ifs with h1 h2' hA hB hC hD <;> dsimp only <;>
    first
      | exact Or.inl ⟨rfl, rfl, rfl, rfl, rfl, rfl, h1.1, h1.2⟩
      | exact Or.inr (Or.inl ⟨rfl, rfl, rfl, rfl, rfl, rfl, by omega⟩)
      | exact Or.inr (Or.inr ⟨rfl, rfl, by omega, by omega, by omega, by omega,
          by omega, by omega, by omega, by omega⟩)

/-- Witness for C2 at a concrete input whose diff is a `noChange`. -/
theorem measure_diff_consistent_witness :
    ∃ a d, (ScrollAxis.make 0 1 5).measure 100 2 5 10 0 0 50 30 = .ok (a, d) ∧
      ((a.noAddRemoveNeeded = true ∧ a.neeedToRemoveAllItems = false ∧
        a.countToAddAtStart = 0 ∧ a.countToRemoveAtStart = 0 ∧
        a.countToAddAtEnd = 0 ∧ a.countToRemoveAtEnd = 0 ∧
        a.newFirst = 2 ∧ a.newLast = 2 + 5 - 1) ∨
      (a.noAddRemoveNeeded = false ∧ a.neeedToRemoveAllItems = true ∧
        a.countToAddAtStart = 0 ∧ a.countToRemoveAtStart = 0 ∧
        a.countToAddAtEnd = 0 ∧ a.countToRemoveAtEnd = 0 ∧
        (2 + 5 - 1 < a.newFirst ∨ a.newLast < 2)) ∨
      (a.noAddRemoveNeeded = false ∧ a.neeedToRemoveAllItems = false ∧
        0 ≤ a.countToAddAtStart ∧ 0 ≤ a.countToRemoveAtStart ∧
        0 ≤ a.countToAddAtEnd ∧ 0 ≤ a.countToRemoveAtEnd ∧
        (a.countToAddAtStart = 0 ∨ a.countToRemoveAtStart = 0) ∧
        (a.countToAddAtEnd = 0 ∨ a.countToRemoveAtEnd = 0) ∧
        a.newFirst = 2 - a.countToAddAtStart + a.countToRemoveAtStart ∧
        a.newLast = (2 + 5 - 1) + a.countToAddAtEnd - a.countToRemoveAtEnd)) := by
  have h : (ScrollAxis.make 0 1 5).measure 100 2 5 10 0 0 50 30 =
      .ok ({ ScrollAxisAction.init with
        newAvgItemSize := 10, newWallSize := 1000, newSubsetOffset := 20,
        newFirst := 2, newLast := 6, noAddRemoveNeeded := true }, false) := by
    norm_num [ScrollAxis.measure, measureCore, newFirstOf, newLastOf, newAvgOf,
      selectFirst, selectLast, applyDiff, ScrollAxisAction.init, ScrollAxis.make]
  exact ⟨_, _, h, measure_diff_consistent (ScrollAxis.make 0 1 5) 100 2 5 10 0 0 50 30
    (by norm_num) (by norm_num) _ _ h⟩

/-! ### Claim C3: zero-dataset no-op -/

/-- Claim C3.  Zero-dataset no-op: whenever `measure` is called with
`totalCount = 0` (for any values of the other arguments), it returns the
freshly-initialized action: range fields both `0` (nothing materialized),
zero wall size and zero subset offset, no `replaceAll`, and all four
add/remove counts zero — so applying the diff neither adds nor removes any
item. -/
theorem measure_zero_dataset_noop (ax : ScrollAxis) (oldFirst oldCount : ℤ)
    (oldAvgItemSize frameSize wallSize subsetSize scrollPos : ℚ) :
    ax.measure 0 oldFirst oldCount oldAvgItemSize frameSize wallSize subsetSize scrollPos =
        .ok (ScrollAxisAction.init, false) ∧
      ScrollAxisAction.init.newFirst = 0 ∧ ScrollAxisAction.init.newLast = 0 ∧
      ScrollAxisAction.init.newWallSize = 0 ∧ ScrollAxisAction.init.newSubsetOffset = 0 ∧
      ScrollAxisAction.init.neeedToRemoveAllItems = false ∧
      ScrollAxisAction.init.countToAddAtStart = 0 ∧
      ScrollAxisAction.init.countToRemoveAtStart = 0 ∧
      ScrollAxisAction.init.countToAddAtEnd = 0 ∧
      ScrollAxisAction.init.countToRemoveAtEnd = 0 := by
  refine ⟨?_, rfl, rfl, rfl, rfl, rfl, rfl, rfl, rfl, rfl⟩
  simp [ScrollAxis.measure]

/-! ### Claim C4: the hysteresis distance tie-break -/


/-- Claim C4 counterexample: with overscans `(0, 1, 5)`, `totalCount = 100`,
old range `[2, 6]`, established average `10`, `subsetSize = 50`, `frame = 0`
and `scrollPos = 20`, the derived end candidates are `minL = 2`, `optL = 3`,
`maxL = 7` against `oldFirst = 2`, `oldLast = 6`.  The code compares distances
against the opposite boundary (`7 - 2 > 2 - 3`) and picks `newLast = 7`,
whereas the claim's rule (distances from the current boundary `oldLast`,
`7 - 6 > 6 - 3`) would pick the optimal boundary `3`. -/
theorem measure_tiebreak_counterexample :
    (ScrollAxis.make 0 1 5).measure 100 2 5 10 0 0 50 20 =
        .ok ({ ScrollAxisAction.init with
          newAvgItemSize := 10, newWallSize := 1000, newSubsetOffset := 0,
          newFirst := 0, newLast := 7,
          countToAddAtStart := 2, countToAddAtEnd := 1 }, false) ∧
      selectLast 2 3 7 2 6 = 7 ∧ selectLastSpecC4 2 3 7 2 6 = 3 ∧ (7 : ℤ) ≠ 3 := by
  refine ⟨?_, by norm_num [selectLast], by norm_num [selectLastSpecC4], by norm_num⟩
  norm_num [ScrollAxis.measure, measureCore, newFirstOf, newLastOf, newAvgOf,
    selectFirst, selectLast, applyDiff, ScrollAxisAction.init, ScrollAxis.make]

/-- Claim C4 (amended).  Hysteresis distance tie-break: when none of the earlier
cases applies, the new boundary is chosen by comparing distances measured from
the **opposite** boundary of the current range — `newFirst` compares
`oldLast - maxOverscanFirst` with `optOverscanFirst - oldLast`, and `newLast`
compares `maxOverscanLast - oldFirst` with `oldFirst - optOverscanLast` — the
max-overscan boundary being picked when the former exceeds the latter, and the
optimal boundary otherwise. -/
theorem measure_tiebreak_opposite_boundary (ax : ScrollAxis) (totalCount oldFirst oldCount : ℤ)
    (oldAvgItemSize frameSize wallSize subsetSize scrollPos : ℚ)
    (htc : totalCount ≠ 0) (hoc : oldCount ≠ 0)
    (a : ScrollAxisAction) (d : Bool)
    (h : ax.measure totalCount oldFirst oldCount oldAvgItemSize frameSize wallSize subsetSize
        scrollPos = .ok (a, d)) :
    (¬ max (min ⌊scrollPos / newAvgOf oldCount oldAvgItemSize subsetSize⌋ (totalCount - 1) -
          ax.minOverscan) 0 < oldFirst →
     ¬ (max (min ⌊scrollPos / newAvgOf oldCount oldAvgItemSize subsetSize⌋ (totalCount - 1) -
          ax.minOverscan) 0 > oldFirst ∧
        max (min ⌊scrollPos / newAvgOf oldCount oldAvgItemSize subsetSize⌋ (totalCount - 1) -
          ax.minOverscan) 0 < oldFirst + oldCount - 1) →
     ¬ max (min ⌊scrollPos / newAvgOf oldCount oldAvgItemSize subsetSize⌋ (totalCount - 1) -
          ax.maxOverscan) 0 > oldFirst + oldCount - 1 →
     a.newFirst =
       if oldFirst + oldCount - 1 -
            max (min ⌊scrollPos / newAvgOf oldCount oldAvgItemSize subsetSize⌋ (totalCount - 1) -
              ax.maxOverscan) 0 >
          max (min ⌊scrollPos / newAvgOf oldCount oldAvgItemSize subsetSize⌋ (totalCount - 1) -
              ax.optOverscan) 0 - (oldFirst + oldCount - 1)
       then max (min ⌊scrollPos / newAvgOf oldCount oldAvgItemSize subsetSize⌋ (totalCount - 1) -
              ax.maxOverscan) 0
       else max (min ⌊scrollPos / newAvgOf oldCount oldAvgItemSize subsetSize⌋ (totalCount - 1) -
              ax.optOverscan) 0) ∧
    (¬ min (min ⌈(scrollPos + frameSize) / newAvgOf oldCount oldAvgItemSize subsetSize⌉
          (totalCount - 1) + ax.minOverscan) (totalCount - 1) > oldFirst + oldCount - 1 →
     ¬ (min (min ⌈(scrollPos + frameSize) / newAvgOf oldCount oldAvgItemSize subsetSize⌉
          (totalCount - 1) + ax.minOverscan) (totalCount - 1) < oldFirst + oldCount - 1 ∧
        min (min ⌈(scrollPos + frameSize) / newAvgOf oldCount oldAvgItemSize subsetSize⌉
          (totalCount - 1) + ax.minOverscan) (totalCount - 1) > oldFirst) →
     ¬ min (min ⌈(scrollPos + frameSize) / newAvgOf oldCount oldAvgItemSize subsetSize⌉
          (totalCount - 1) + ax.maxOverscan) (totalCount - 1) < oldFirst →
     a.newLast =
       if min (min ⌈(scrollPos + frameSize) / newAvgOf oldCount oldAvgItemSize subsetSize⌉
              (totalCount - 1) + ax.maxOverscan) (totalCount - 1) - oldFirst >
          oldFirst - min (min ⌈(scrollPos + frameSize) / newAvgOf oldCount oldAvgItemSize
              subsetSize⌉ (totalCount - 1) + ax.optOverscan) (totalCount - 1)
       then min (min ⌈(scrollPos + frameSize) / newAvgOf oldCount oldAvgItemSize subsetSize⌉
              (totalCount - 1) + ax.maxOverscan) (totalCount - 1)
       else min (min ⌈(scrollPos + frameSize) / newAvgOf oldCount oldAvgItemSize subsetSize⌉
              (totalCount - 1) + ax.optOverscan) (totalCount - 1)) := by
  rw [measure_eq_ok ax totalCount oldFirst oldCount oldAvgItemSize frameSize wallSize subsetSize
    scrollPos htc hoc] at h
  injection h with h2
  have ha : a = (measureCore ax totalCount oldFirst oldCount oldAvgItemSize frameSize subsetSize
      scrollPos).1 := by rw [h2]
  constructor
  · intro h1 h2' h3
    rw [ha, measureCore_fst_newFirst]
    simp only [newFirstOf, selectFirst]
    rw [if_neg h1, if_neg h2', if_neg h3]
  · intro h1 h2' h3
    rw [ha, measureCore_fst_newLast]
    simp only [newLastOf, selectLast]
    rw [if_neg h1, if_neg h2', if_neg h3]

/-- Witness for the amended C4 at a concrete input whose start boundary
reaches the tie-break case: the comparison against the opposite boundary
selects the max-overscan start boundary `264`. -/
theorem measure_tiebreak_opposite_boundary_witness :
    ∃ a d, (ScrollAxis.make 2 4 8).measure 1000 246 24 20 300 0 400 5000 = .ok (a, d) ∧
      a.newFirst = 264 := by
  have hc1 : ⌈(3180 : ℚ)/11⌉ = 290 := by rw [Int.ceil_eq_iff] ; norm_num
  have hc2 : ⌈(55000 : ℚ)/3⌉ = 18334 := by rw [Int.ceil_eq_iff] ; norm_num
  have h : (ScrollAxis.make 2 4 8).measure 1000 246 24 20 300 0 400 5000 =
      .ok ({ ScrollAxisAction.init with
        newAvgItemSize := 55/3, newWallSize := 18334, newSubsetOffset := 4840,
        newFirst := 264, newLast := 294,
        countToRemoveAtStart := 18, countToAddAtEnd := 25 }, false) := by
    norm_num [ScrollAxis.measure, measureCore, newFirstOf, newLastOf, newAvgOf,
      selectFirst, selectLast, applyDiff, ScrollAxisAction.init, ScrollAxis.make, hc1, hc2]
  have hc := (measure_tiebreak_opposite_boundary (ScrollAxis.make 2 4 8) 1000 246 24 20 300 0 400
    5000 (by norm_num) (by norm_num) _ _ h).1
    (by norm_num [newAvgOf, ScrollAxis.make]) (by norm_num [newAvgOf, ScrollAxis.make])
    (by norm_num [newAvgOf, ScrollAxis.make])
  refine ⟨_, _, h, ?_⟩
  rw [hc]
  norm_num [newAvgOf, ScrollAxis.make]

/-! ### Claim C5: computed-range inversion -/

theorem measureCore_snd (ax : ScrollAxis) (totalCount oldFirst oldCount : ℤ)
    (oldAvgItemSize frameSize subsetSize scrollPos : ℚ) :
    (measureCore ax totalCount oldFirst oldCount oldAvgItemSize frameSize subsetSize scrollPos).2 =
      decide (newFirstOf ax totalCount oldFirst oldCount oldAvgItemSize subsetSize scrollPos >
        newLastOf ax totalCount oldFirst oldCount oldAvgItemSize frameSize subsetSize scrollPos) := by
  simp [measureCore]

/-- Claim C5 counterexample: with overscans `(2, 4, 8)`, `totalCount = 10`, old
range `[0, 0]`, previous average `2`, `subsetSize = -100` and
`scrollPos = 980`, the smoothed average is `-49` and the computed range is
inverted (`newFirst = 0 > newLast = -16`).  The code detects this and emits
the diagnostic (second component `true`) and does not throw — but it does
**not** treat the measurement as a no-op: the returned action carries the
inverted range together with a `neeedToRemoveAllItems` instruction telling the
caller to rebuild to exactly that range. -/
theorem measure_inversion_counterexample :
    (ScrollAxis.make 2 4 8).measure 10 0 1 2 0 0 (-100) 980 =
        .ok ({ ScrollAxisAction.init with
          newAvgItemSize := -49, newWallSize := -490, newSubsetOffset := 0,
          newFirst := 0, newLast := -16, neeedToRemoveAllItems := true }, true) ∧
      ((0 : ℤ) > -16 ∧ ¬ (0 : ℤ) ≤ -16) := by
  have hc1 : ⌈(-20 : ℚ)⌉ = -20 := by rw [Int.ceil_eq_iff] ; norm_num
  have hc2 : ⌈(-490 : ℚ)⌉ = -490 := by rw [Int.ceil_eq_iff] ; norm_num
  refine ⟨?_, by norm_num⟩
  norm_num [ScrollAxis.measure, measureCore, newFirstOf, newLastOf, newAvgOf,
    selectFirst, selectLast, applyDiff, ScrollAxisAction.init, ScrollAxis.make, hc1, hc2]

/-- Claim C5 (amended).  For every call with `totalCount ≠ 0` and `oldCount ≠ 0`
the method does not throw; it detects the inverted computed range and emits
the `console.error` diagnostic exactly when `newFirst > newLast`; but instead
of falling back to a no-op it returns the action carrying the computed
(possibly inverted) range. -/
theorem measure_inversion_detected_not_noop (ax : ScrollAxis) (totalCount oldFirst oldCount : ℤ)
    (oldAvgItemSize frameSize wallSize subsetSize scrollPos : ℚ)
    (htc : totalCount ≠ 0) (hoc : oldCount ≠ 0) :
    ∃ a d, ax.measure totalCount oldFirst oldCount oldAvgItemSize frameSize wallSize subsetSize
        scrollPos = .ok (a, d) ∧
      (d = true ↔ a.newLast < a.newFirst) ∧
      a.newFirst = newFirstOf ax totalCount oldFirst oldCount oldAvgItemSize subsetSize scrollPos ∧
      a.newLast = newLastOf ax totalCount oldFirst oldCount oldAvgItemSize frameSize subsetSize
        scrollPos := by
  refine ⟨(measureCore ax totalCount oldFirst oldCount oldAvgItemSize frameSize subsetSize
      scrollPos).1,
    (measureCore ax totalCount oldFirst oldCount oldAvgItemSize frameSize subsetSize scrollPos).2,
    ?_, ?_,
    measureCore_fst_newFirst ax totalCount oldFirst oldCount oldAvgItemSize frameSize subsetSize
      scrollPos,
    measureCore_fst_newLast ax totalCount oldFirst oldCount oldAvgItemSize frameSize subsetSize
      scrollPos⟩
  · rw [measure_eq_ok ax totalCount oldFirst oldCount oldAvgItemSize frameSize wallSize subsetSize
      scrollPos htc hoc]
  · rw [measureCore_snd ax totalCount oldFirst oldCount oldAvgItemSize frameSize subsetSize
      scrollPos, measureCore_fst_newFirst, measureCore_fst_newLast]
    simp

/-- Witness for the amended C5 at a well-behaved concrete input (the range is
not inverted there, and accordingly no diagnostic is emitted). -/
theorem measure_inversion_detected_not_noop_witness :
    ∃ a d, (ScrollAxis.make 2 4 8).measure 10 0 1 2 0 0 10 0 = .ok (a, d) ∧
      (d = true ↔ a.newLast < a.newFirst) ∧
      a.newFirst = newFirstOf (ScrollAxis.make 2 4 8) 10 0 1 2 10 0 ∧
      a.newLast = newLastOf (ScrollAxis.make 2 4 8) 10 0 1 2 0 10 0 :=
  measure_inversion_detected_not_noop (ScrollAxis.make 2 4 8) 10 0 1 2 0 0 10 0
    (by norm_num) (by norm_num)

/-! ### Claim C6: degenerate geometry (`subsetSize = 0`) -/

/-- Claim C6 counterexample: with `totalCount = 1`, `oldCount = 1`,
`oldAvgItemSize = 10` and `subsetSize = 0`, the returned `newAvgItemSize` is
`5 = 10 / 2`, not the `10` passed in: the zero raw estimate is averaged into
the smoothing rather than the previous estimate being kept. -/
theorem measure_zero_subset_counterexample :
    (ScrollAxis.make 2 4 8).measure 1 0 1 10 0 0 0 0 =
        .ok ({ ScrollAxisAction.init with
          newAvgItemSize := 5, newWallSize := 5, newSubsetOffset := 0,
          newFirst := 0, newLast := 0, noAddRemoveNeeded := true }, false) ∧
      (5 : ℚ) ≠ 10 := by
  have hc1 : ⌈(5 : ℚ)⌉ = 5 := by rw [Int.ceil_eq_iff] ; norm_num
  refine ⟨?_, by norm_num⟩
  norm_num [ScrollAxis.measure, measureCore, newFirstOf, newLastOf, newAvgOf,
    selectFirst, selectLast, applyDiff, ScrollAxisAction.init, ScrollAxis.make, hc1]

/-- Claim C6 (amended).  Degenerate size measurement: when `subsetSize = 0` and
a previous estimate `oldAvgItemSize ≠ 0` exists, the raw estimate `0` is
averaged with it, so the returned `newAvgItemSize` is `oldAvgItemSize / 2` —
the previous estimate is halved, not kept.  (Since the result is still
non-zero for `oldAvgItemSize > 0`, the subsequent divisions divide by a
non-zero value.) -/
theorem measure_zero_subset_halves_avg (ax : ScrollAxis) (totalCount oldFirst oldCount : ℤ)
    (oldAvgItemSize frameSize wallSize scrollPos : ℚ)
    (htc : totalCount ≠ 0) (hoc : oldCount ≠ 0) (hoa : oldAvgItemSize ≠ 0) :
    ∃ a d, ax.measure totalCount oldFirst oldCount oldAvgItemSize frameSize wallSize 0 scrollPos =
        .ok (a, d) ∧ a.newAvgItemSize = oldAvgItemSize / 2 := by
  refine ⟨(measureCore ax totalCount oldFirst oldCount oldAvgItemSize frameSize 0 scrollPos).1,
    (measureCore ax totalCount oldFirst oldCount oldAvgItemSize frameSize 0 scrollPos).2, ?_, ?_⟩
  · rw [measure_eq_ok ax totalCount oldFirst oldCount oldAvgItemSize frameSize wallSize 0
      scrollPos htc hoc]
  · rw [measureCore_fst_newAvgItemSize]
    unfold newAvgOf
    rw [if_pos hoa]
    rw [zero_div, zero_add]

/-- Witness for the amended C6: with previous estimate `8` and `subsetSize`
zero, the returned estimate is `8 / 2 = 4`. -/
theorem measure_zero_subset_halves_avg_witness :
    ∃ a d, (ScrollAxis.make 2 4 8).measure 5 0 2 8 10 0 0 0 = .ok (a, d) ∧
      a.newAvgItemSize = 8 / 2 :=
  measure_zero_subset_halves_avg (ScrollAxis.make 2 4 8) 5 0 2 8 10 0 0
    (by norm_num) (by norm_num) (by norm_num)

/-! ### Claim C7: construction-time configuration check -/

/-- Claim C7 counterexample: constructing a `ScrollAxis` with overscans
`(5, 1, 0)`, which violate `minOverscan ≤ optOverscan ≤ maxOverscan`, is not
rejected: the constructor stores the three values as given and the resulting
instance is fully usable — `measure` succeeds on it. -/
theorem make_no_validation_counterexample :
    ScrollAxis.make 5 1 0 = { minOverscan := 5, optOverscan := 1, maxOverscan := 0 } ∧
      ¬ ((5 : ℤ) ≤ 1 ∧ (1 : ℤ) ≤ 0) ∧
      (ScrollAxis.make 5 1 0).measure 10 0 1 1 100 0 10 0 =
        .ok ({ ScrollAxisAction.init with
          newAvgItemSize := 11/2, newWallSize := 55, newSubsetOffset := 0,
          newFirst := 0, newLast := 9, countToAddAtEnd := 9 }, false) := by
  have hc1 : ⌈(200 : ℚ)/11⌉ = 19 := by rw [Int.ceil_eq_iff] ; norm_num
  have hc2 : ⌈(55 : ℚ)⌉ = 55 := by rw [Int.ceil_eq_iff] ; norm_num
  refine ⟨rfl, by norm_num, ?_⟩
  norm_num [ScrollAxis.measure, measureCore, newFirstOf, newLastOf, newAvgOf,
    selectFirst, selectLast, applyDiff, ScrollAxisAction.init, ScrollAxis.make, hc1, hc2]

/-- Claim C7 (amended).  The constructor performs no validation: it stores
whatever overscan values it is given, and the resulting instance is usable —
`measure` on it returns a result (never an error) for every input with
`oldCount ≠ 0`, regardless of the configuration values. -/
theorem make_unvalidated_usable (minO optO maxO totalCount oldFirst oldCount : ℤ)
    (oldAvgItemSize frameSize wallSize subsetSize scrollPos : ℚ)
    (hoc : oldCount ≠ 0) :
    ScrollAxis.make minO optO maxO =
        { minOverscan := minO, optOverscan := optO, maxOverscan := maxO } ∧
      ∃ r, (ScrollAxis.make minO optO maxO).measure totalCount oldFirst oldCount oldAvgItemSize
          frameSize wallSize subsetSize scrollPos = .ok r := by
  refine ⟨rfl, ?_⟩
  by_cases htc : totalCount = 0
  · exact ⟨(ScrollAxisAction.init, false), by simp [ScrollAxis.measure, htc]⟩
  · exact ⟨_, measure_eq_ok (ScrollAxis.make minO optO maxO) totalCount oldFirst oldCount
      oldAvgItemSize frameSize wallSize subsetSize scrollPos htc hoc⟩

/-- Witness for the amended C7 at the inverted configuration `(7, 3, 1)`. -/
theorem make_unvalidated_usable_witness :
    ScrollAxis.make 7 3 1 = { minOverscan := 7, optOverscan := 3, maxOverscan := 1 } ∧
      ∃ r, (ScrollAxis.make 7 3 1).measure 10 0 1 1 0 0 10 0 = .ok r :=
  make_unvalidated_usable 7 3 1 10 0 1 1 0 0 10 0 (by norm_num)

/-! ### Claim C8: idempotence under unchanged geometry -/


/-- Claim C8 counterexample: calling `measure` a second time with identical
geometry, the first call's output serving as the old state (`oldFirst = 246`,
`oldCount = 24`, `oldAvgItemSize = 20`), does **not** yield a `noChange` diff:
the second call re-divides the same `subsetSize = 400` by the new count `24`,
shifting the estimate to `55/3` and the range to `[264, 294]`. -/
theorem measure_idempotence_counterexample :
    (ScrollAxis.make 2 4 8).measure 1000 0 20 0 300 0 400 5000 = .ok (c8FirstAction, false) ∧
      (ScrollAxis.make 2 4 8).measure 1000 c8FirstAction.newFirst
          (c8FirstAction.newLast - c8FirstAction.newFirst + 1) c8FirstAction.newAvgItemSize
          300 0 400 5000 = .ok (c8SecondAction, false) ∧
      c8SecondAction.noAddRemoveNeeded = false := by
  have hc1 : ⌈(3180 : ℚ)/11⌉ = 290 := by rw [Int.ceil_eq_iff] ; norm_num
  have hc2 : ⌈(55000 : ℚ)/3⌉ = 18334 := by rw [Int.ceil_eq_iff] ; norm_num
  refine ⟨?_, ?_, rfl⟩
  · norm_num [ScrollAxis.measure, measureCore, newFirstOf, newLastOf, newAvgOf,
      selectFirst, selectLast, applyDiff, ScrollAxisAction.init, ScrollAxis.make, c8FirstAction]
  · norm_num [ScrollAxis.measure, measureCore, newFirstOf, newLastOf, newAvgOf,
      selectFirst, selectLast, applyDiff, ScrollAxisAction.init, ScrollAxis.make,
      c8FirstAction, c8SecondAction, hc1, hc2]

theorem applyDiff_ranges_of_noAddRemove (b : ScrollAxisAction) (oldFirst oldLast nf nl : ℤ)
    (hb : b.noAddRemoveNeeded = false)
    (h : (applyDiff b oldFirst oldLast nf nl).noAddRemoveNeeded = true) :
    nf = oldFirst ∧ nl = oldLast := by
  unfold applyDiff at h
  split_ifs at h with h1 h2 <;>
    first
      | exact h1
      | (dsimp only at h ; rw [hb] at h ; exact absurd h (by decide))

/-- Claim C8 (amended).  Idempotence holds at a fixed point of the estimate: if
a `measure` call returns a `noChange` diff **and** its returned average equals
the average passed in (the raw estimate has converged), then the second call
with the same geometry and the first call's output as its old state has
literally identical arguments, so it returns the very same action — in
particular a `noChange` diff. -/
theorem measure_idempotent_at_fixed_point (ax : ScrollAxis) (totalCount oldFirst oldCount : ℤ)
    (oldAvgItemSize frameSize wallSize subsetSize scrollPos : ℚ)
    (htc : totalCount ≠ 0) (hoc : oldCount ≠ 0)
    (a : ScrollAxisAction) (d : Bool)
    (h : ax.measure totalCount oldFirst oldCount oldAvgItemSize frameSize wallSize subsetSize
        scrollPos = .ok (a, d))
    (hnc : a.noAddRemoveNeeded = true) (havg : a.newAvgItemSize = oldAvgItemSize) :
    ax.measure totalCount a.newFirst (a.newLast - a.newFirst + 1) a.newAvgItemSize frameSize
        wallSize subsetSize scrollPos = .ok (a, d) ∧ a.noAddRemoveNeeded = true := by
  rw [measure_eq_ok ax totalCount oldFirst oldCount oldAvgItemSize frameSize wallSize subsetSize
    scrollPos htc hoc] at h
  injection h with h2
  have ha : a = (measureCore ax totalCount oldFirst oldCount oldAvgItemSize frameSize subsetSize
      scrollPos).1 := by rw [h2]
  have hranges : newFirstOf ax totalCount oldFirst oldCount oldAvgItemSize subsetSize scrollPos =
      oldFirst ∧
      newLastOf ax totalCount oldFirst oldCount oldAvgItemSize frameSize subsetSize scrollPos =
        oldFirst + oldCount - 1 := by
    rw [ha] at hnc
    simp only [measureCore] at hnc
    exact applyDiff_ranges_of_noAddRemove _ _ _ _ _ rfl hnc
  have e1 : a.newFirst = oldFirst := by
    rw [ha, measureCore_fst_newFirst, hranges.1]
  have e2 : a.newLast = oldFirst + oldCount - 1 := by
    rw [ha, measureCore_fst_newLast, hranges.2]
  have e3 : a.newLast - a.newFirst + 1 = oldCount := by
    rw [e1, e2] ; ring
  rw [e3, e1, havg]
  rw [measure_eq_ok ax totalCount oldFirst oldCount oldAvgItemSize frameSize wallSize subsetSize
    scrollPos htc hoc, h2]
  exact ⟨rfl, hnc⟩

/-- Witness for the amended C8: a converged measurement (`subsetSize = 50`,
`oldCount = 5`, `oldAvgItemSize = 10`, raw estimate `10`) returning `noChange`
is reproduced exactly by the second call. -/
theorem measure_idempotent_at_fixed_point_witness :
    ∃ a d, (ScrollAxis.make 0 1 5).measure 100 2 5 10 0 0 50 30 = .ok (a, d) ∧
      (ScrollAxis.make 0 1 5).measure 100 a.newFirst (a.newLast - a.newFirst + 1)
          a.newAvgItemSize 0 0 50 30 = .ok (a, d) ∧ a.noAddRemoveNeeded = true := by
  have h : (ScrollAxis.make 0 1 5).measure 100 2 5 10 0 0 50 30 =
      .ok ({ ScrollAxisAction.init with
        newAvgItemSize := 10, newWallSize := 1000, newSubsetOffset := 20,
        newFirst := 2, newLast := 6, noAddRemoveNeeded := true }, false) := by
    norm_num [ScrollAxis.measure, measureCore, newFirstOf, newLastOf, newAvgOf,
      selectFirst, selectLast, applyDiff, ScrollAxisAction.init, ScrollAxis.make]
  have hr := measure_idempotent_at_fixed_point (ScrollAxis.make 0 1 5) 100 2 5 10 0 0 50 30
    (by norm_num) (by norm_num) _ _ h rfl rfl
  exact ⟨_, _, h, hr.1, hr.2⟩

/-! ### Claim C9: grid column growth at the end (`VTable.updateCols`) -/


theorem mem_intRange (a b i : ℤ) : i ∈ intRange a b ↔ a ≤ i ∧ i ≤ b := by
  unfold intRange
  rw [List.mem_map]
  constructor
  · rintro ⟨k, hk, rfl⟩
    rw [List.mem_range] at hk
    omega
  · rintro ⟨h1, h2⟩
    refine ⟨(i - a).toNat, ?_, ?_⟩
    · rw [List.mem_range]
      omega
    · omega

theorem intRange_nodup (a b : ℤ) : (intRange a b).Nodup := by
  unfold intRange
  refine List.Nodup.map ?_ (List.nodup_range _)
  intro x y h
  simp only at h
  omega

theorem intRange_length (a b : ℤ) : (intRange a b).length = (b + 1 - a).toNat := by
  rw [intRange, List.length_map, List.length_range]

theorem count_eq_one_of_nodup_mem {α : Type} [BEq α] [LawfulBEq α] {a : α} {l : List α}
    (d : l.Nodup) (h : a ∈ l) : l.count a = 1 := by
  induction l with
  | nil => cases h
  | cons b t ih =>
    rw [List.count_cons]
    rcases List.mem_cons.mp h with rfl | hmem
    · rw [List.count_eq_zero.mpr (List.nodup_cons.mp d).1]
      simp
    · rw [ih (List.nodup_cons.mp d).2 hmem]
      have hne : b ≠ a := fun he => (List.nodup_cons.mp d).1 (he ▸ hmem)
      simp [hne]


/-- Claim C9.  Grid column growth at the end: applying a pure growth-at-end
column action (`countToAddAtEnd = k > 0`, no `replaceAll`, no other counts,
`newLast = lastCol + k` as `measure` guarantees) by `VTable.updateCols`
preserves the number and order of the materialized rows, appends to each row
exactly the cells obtained from the data-source callback at the new column
indices `lastCol + 1 … newLast` in increasing order leaving every existing
cell in place, and invokes the callback exactly once per materialized row and
new column index (the trace being rows in order, columns ascending within
each row). -/
theorem updateCols_add_at_end {α : Type} (getCell : ℤ → ℤ → α) (act : ScrollAxisAction)
    (st : VTableState α) (k : ℤ)
    (hra : act.neeedToRemoveAllItems = false)
    (hrs : act.countToRemoveAtStart = 0) (hre : act.countToRemoveAtEnd = 0)
    (has : act.countToAddAtStart = 0)
    (hae : act.countToAddAtEnd = k) (hk : 0 < k)
    (hnl : act.newLast = st.lastCol + k)
    (hlen : st.rows.length = (st.lastRow + 1 - st.firstRow).toNat) :
    (VTable.updateCols getCell act st).1.rows.length = st.rows.length ∧
    (∀ r : ℕ, (VTable.updateCols getCell act st).1.rows.get? r =
      (st.rows.get? r).map (fun cells =>
        cells ++ (intRange (st.lastCol + 1) act.newLast).map
          (fun j => getCell (st.firstRow + (r : ℤ)) j))) ∧
    (VTable.updateCols getCell act st).2 =
      (intRange st.firstRow st.lastRow).flatMap (fun i =>
        (intRange (st.lastCol + 1) act.newLast).map (fun j => (i, j))) ∧
    (intRange st.firstRow st.lastRow).length = st.rows.length ∧
    (∀ i j : ℤ, st.firstRow ≤ i → i ≤ st.lastRow → st.lastCol + 1 ≤ j → j ≤ act.newLast →
      (VTable.updateCols getCell act st).2.count (i, j) = 1) ∧
    (VTable.updateCols getCell act st).1.firstRow = st.firstRow ∧
    (VTable.updateCols getCell act st).1.lastRow = st.lastRow ∧
    (VTable.updateCols getCell act st).1.firstCol = act.newFirst ∧
    (VTable.updateCols getCell act st).1.lastCol = act.newLast := by
  have hred : VTable.updateCols getCell act st =
      ({ st with
          rows := st.rows.mapIdx (fun r cells =>
            cells ++ (intRange (st.lastCol + 1) act.newLast).map
              (fun j => getCell (st.firstRow + (r : ℤ)) j)),
          firstCol := act.newFirst, lastCol := act.newLast },
        (intRange st.firstRow st.lastRow).flatMap (fun i =>
          (intRange (st.lastCol + 1) act.newLast).map (fun j => (i, j)))) := by
    rw [VTable.updateCols, hra]
    simp only [Bool.false_eq_true, if_false, hrs, hre, has, hae, lt_irrefl, gt_iff_lt,
      if_pos hk, if_neg (lt_irrefl (0 : ℤ)), List.append_nil]
  refine ⟨?_, ?_, ?_, ?_, ?_, ?_, ?_, ?_, ?_⟩
  · rw [hred]
    exact List.length_mapIdx
  · intro r
    rw [hred]
    simp only [List.get?_eq_getElem?, List.getElem?_mapIdx]
  · rw [hred]
  · rw [intRange_length, hlen]
  · intro i j h1 h2 h3 h4
    rw [hred]
    apply count_eq_one_of_nodup_mem
    · refine List.nodup_flatMap.mpr ⟨?_, ?_⟩
      · intro x _
        refine List.Nodup.map ?_ (intRange_nodup _ _)
        intro p q hpq
        injection hpq
      · refine List.Pairwise.imp ?_ (intRange_nodup st.firstRow st.lastRow)
        intro i₁ i₂ hne p hp1 hp2
        simp only [List.mem_map] at hp1 hp2
        obtain ⟨j₁, _, rfl⟩ := hp1
        obtain ⟨j₂, _, hj⟩ := hp2
        exact hne (congrArg Prod.fst hj).symm
    · refine List.mem_flatMap.mpr ⟨i, (mem_intRange _ _ _).mpr ⟨h1, h2⟩, ?_⟩
      exact List.mem_map.mpr ⟨j, (mem_intRange _ _ _).mpr ⟨h3, h4⟩, rfl⟩
  · rw [hred]
  · rw [hred]
  · rw [hred]
  · rw [hred]

/-- Witness for C9: a one-row, one-column table grows by one column at the
end; the single new cell comes from one callback invocation at `(0, 1)`. -/
theorem updateCols_add_at_end_witness :
    (VTable.updateCols (fun i j => 10 * i + j)
        { ScrollAxisAction.init with newLast := 1, countToAddAtEnd := 1 }
        ⟨[[(7 : ℤ)]], 0, 0, 0, 0⟩).1.rows.length = 1 ∧
      (VTable.updateCols (fun i j => 10 * i + j)
        { ScrollAxisAction.init with newLast := 1, countToAddAtEnd := 1 }
        ⟨[[(7 : ℤ)]], 0, 0, 0, 0⟩).2.count (0, 1) = 1 := by
  have h := updateCols_add_at_end (fun i j => (10 * i + j : ℤ))
    { ScrollAxisAction.init with newLast := 1, countToAddAtEnd := 1 }
    ⟨[[(7 : ℤ)]], 0, 0, 0, 0⟩ 1 rfl rfl rfl rfl rfl (by norm_num) (by decide) (by decide)
  exact ⟨h.1.trans rfl, h.2.2.2.2.1 0 1 (by decide) (by decide) (by decide) (by decide)⟩

/-! ### Claim C10: purity and determinism of `measure` -/

/-- Claim C10.  Purity and determinism of `measure`: the method body reads the
three overscan configuration fields and never writes any instance field, so
its state-passing embedding `measureM` returns the receiver unchanged; hence
a second call on the same instance with identical arguments returns the very
same result — a `ScrollAxisAction` (and diagnostic flag) all of whose fields
are equal to the first call's. -/
theorem measure_pure_deterministic (ax : ScrollAxis) (totalCount oldFirst oldCount : ℤ)
    (oldAvgItemSize frameSize wallSize subsetSize scrollPos : ℚ) :
    (ax.measureM totalCount oldFirst oldCount oldAvgItemSize frameSize wallSize subsetSize
        scrollPos).2 = ax ∧
      ((ax.measureM totalCount oldFirst oldCount oldAvgItemSize frameSize wallSize subsetSize
          scrollPos).2.measureM totalCount oldFirst oldCount oldAvgItemSize frameSize wallSize
          subsetSize scrollPos).1 =
        (ax.measureM totalCount oldFirst oldCount oldAvgItemSize frameSize wallSize subsetSize
          scrollPos).1 :=
  ⟨rfl, rfl⟩
